import Mathlib

/-!
Shallow embedding of `src/zoom-agent/script.js` (an Express server that
orchestrates prompt generation, Luma video generation, status polling and
interpolation, publishing the current background video URL), together with
proofs about the claims of the specification.

External HTTP calls are modelled by oracle functions supplied as arguments:
a `FetchResult α` is the outcome of one `fetch` + `response.json()` pair —
either a transport/parse failure (`err`, the JS exception path) or a parsed
body of shape `α`.  JS objects are dynamic, so every field read by the code
is modelled as an `Option` (a missing field is `none`).  The unbounded
`while (true)` poll loop is modelled with explicit fuel; running out of fuel
is the `diverge` outcome, meaning the loop is still running.
-/

/-- Outcome of one `fetch` + `response.json()` pair: transport or parse
failure, or a parsed response body. -/
inductive FetchResult (α : Type) where
  | err : FetchResult α
  | ok : α → FetchResult α
deriving DecidableEq

/-- The fields of a Luma generation object that the code reads:
`data.id`, `generation.status`, `generation.video_url`.  Each is `Option`
because the JS object may lack it. -/
structure Generation where
  id : Option String
  status : Option String
  video_url : Option String
deriving DecidableEq

/-- One element of OpenAI's `choices` array; the code reads `.text`. -/
structure Choice where
  text : Option String
deriving DecidableEq

/-- Body of the OpenAI completion response; the code reads `.choices`. -/
structure CompletionResponse where
  choices : Option (List Choice)
deriving DecidableEq

/-- The prompt sent in the OpenAI request body (script.js:30):
`` `${basePrompt} with slight variation` ``. -/
def promptRequestBody (basePrompt : String) : String :=
  basePrompt ++ " with slight variation"

/-- JS `String.prototype.trim`: removes whitespace from both ends of the
string.  (Executable model over the character list; Lean's own
`String.trim` is not kernel-reducible.) -/
def trimString (s : String) : String :=
  ⟨((s.data.dropWhile Char.isWhitespace).reverse.dropWhile
      Char.isWhitespace).reverse⟩

/-- `generatePromptForLuma` (script.js:20-44).  `resp` is the outcome of the
OpenAI call for `promptRequestBody basePrompt`.  The whole body is inside
`try { ... } catch { return basePrompt }`, so the function is total (it never
raises): a transport/parse failure, a missing or empty `choices` array, and a
missing `text` field (where `.trim()` would throw a TypeError, caught by the
same handler) all fall back to `basePrompt`; otherwise it returns
`data.choices[0].text.trim()`. -/
def generatePromptForLuma (resp : FetchResult CompletionResponse)
    (basePrompt : String) : String :=
  match resp with
  | .err => basePrompt
  | .ok data =>
    match data.choices with
    | some (c :: _) =>
      match c.text with
      | some t => trimString t
      | none => basePrompt
    | some [] => basePrompt
    | none => basePrompt

/-- The fixed seed image URL used by `generateVideo` (script.js:59). -/
def seedImageUrl : String :=
  "https://storage.cdn-luma.com/dream_machine/7e4fe07f-1dfd-4921-bc97-4bcf5adea39a/video_0_thumb.jpg"

/-- Request payload of `generateVideo` (script.js:52-62): prompt, model
`"ray-2"`, and a single image keyframe `frame0`. -/
structure GenPayload where
  prompt : String
  model : String
  frame0_type : String
  frame0_url : String
deriving DecidableEq

/-- The payload `generateVideo` builds for a given prompt. -/
def genPayload (prompt : String) : GenPayload :=
  ⟨prompt, "ray-2", "image", seedImageUrl⟩

/-- `generateVideo` (script.js:50-80).  `respond` gives the remote service's
answer to each payload.  On transport/parse failure the catch block rethrows
(`throw error`), modelled as `Except.error`; otherwise the parsed body is
returned unchanged — the code performs no validation of the `id` field. -/
def generateVideo (respond : GenPayload → FetchResult Generation)
    (prompt : String) : Except Unit Generation :=
  match respond (genPayload prompt) with
  | .err => .error ()
  | .ok data => .ok data

/-- `getGeneration` (script.js:85-100): fetches the status of one generation;
the catch block rethrows on transport/parse failure. -/
def getGeneration (resp : FetchResult Generation) : Except Unit Generation :=
  match resp with
  | .err => .error ()
  | .ok data => .ok data

/-- Outcome of the poll loop under fuel: the loop returned a generation,
`getGeneration` threw (the exception propagates out of `pollGeneration`),
or the fuel ran out while the loop was still running. -/
inductive PollOutcome where
  | ok : Generation → PollOutcome
  | err : PollOutcome
  | diverge : PollOutcome
deriving DecidableEq

/-- `pollGeneration` (script.js:106-117).  `fetch i` is the outcome of the
`i`-th `getGeneration` call for this job.  The loop body fetches the status,
breaks when it is exactly `"completed"`, and otherwise sleeps `interval` ms
and retries; there is no maximum attempt count and no timeout, so the loop is
modelled with fuel (`diverge` = still looping when the fuel runs out). -/
def pollGeneration (fetch : Nat → FetchResult Generation) :
    Nat → PollOutcome
  | 0 => .diverge
  | fuel + 1 =>
    match getGeneration (fetch 0) with
    | .error _ => .err
    | .ok g =>
      if g.status = some "completed" then .ok g
      else pollGeneration (fun i => fetch (i + 1)) fuel

/-- `pollGeneration` instrumented with observable effects: besides the
outcome it returns the number of `getGeneration` fetches performed and the
list of sleep durations awaited (each sleep is `setTimeout(resolve, interval)`,
script.js:114), in order. -/
def pollGenerationCounted (fetch : Nat → FetchResult Generation)
    (interval : Nat) : Nat → PollOutcome × Nat × List Nat
  | 0 => (.diverge, 0, [])
  | fuel + 1 =>
    match getGeneration (fetch 0) with
    | .error _ => (.err, 1, [])
    | .ok g =>
      if g.status = some "completed" then (.ok g, 1, [])
      else
        let r := pollGenerationCounted (fun i => fetch (i + 1)) interval fuel
        (r.1, r.2.1 + 1, interval :: r.2.2)

/-- Request payload of `interpolateVideos` (script.js:125-137): prompt and
two generation-reference keyframes; the ids are `Option` because the code
passes `currentVideo.id`, which may still be `null`. -/
structure InterpPayload where
  prompt : String
  frame0_type : String
  frame0_id : Option String
  frame1_type : String
  frame1_id : Option String
deriving DecidableEq

/-- The payload `interpolateVideos` builds from its arguments. -/
def interpPayloadOf (videoId1 videoId2 : Option String) (prompt : String) :
    InterpPayload :=
  ⟨prompt, "generation", videoId1, "generation", videoId2⟩

/-- `interpolateVideos` (script.js:123-154).  Like `generateVideo`: the catch
block rethrows on transport/parse failure, and the parsed body is returned
unchanged with no validation. -/
def interpolateVideos (respond : InterpPayload → FetchResult Generation)
    (videoId1 videoId2 : Option String) (prompt : String) :
    Except Unit Generation :=
  match respond (interpPayloadOf videoId1 videoId2 prompt) with
  | .err => .error ()
  | .ok data => .ok data

/-- The module-level mutable state (script.js:161-163): `currentVideo`
(`{ id, video_url }`, both initially `null`) and `currentPrompt`. -/
structure ServerState where
  currentVideo_id : Option String
  currentVideo_url : Option String
  currentPrompt : String
deriving DecidableEq

/-- The state at process start: `currentVideo = { id: null, video_url: null }`,
`currentPrompt = "A peaceful dynamic nature background"`. -/
def initialState : ServerState :=
  ⟨none, none, "A peaceful dynamic nature background"⟩

/-- The external world for one run of a procedure: the responses of the
OpenAI completion endpoint (keyed by the request prompt body), the Luma
generation endpoint (keyed by payload), the per-job status endpoint (keyed by
job id — possibly missing — and attempt index), and the interpolation
endpoint (keyed by payload). -/
structure Env where
  promptResp : String → FetchResult CompletionResponse
  genResp : GenPayload → FetchResult Generation
  statusResp : Option String → Nat → FetchResult Generation
  interpResp : InterpPayload → FetchResult Generation

/-- How one run of `initializeBackground` / `updateBackground` ended:
`committed s` — the procedure ran to completion and `s` is the state after
its final assignments; `errored s` — an exception was caught by the
procedure's catch block and `s` is the state at that point; `polling s` —
the fuel ran out inside a poll loop (the unbounded wait is still in
progress) and `s` is the state observable meanwhile. -/
inductive CycleResult where
  | committed : ServerState → CycleResult
  | errored : ServerState → CycleResult
  | polling : ServerState → CycleResult
deriving DecidableEq

/-- `initializeBackground` (script.js:166-183).  Note the order of effects in
the source: `currentPrompt` is assigned the generated prompt (line 169)
before the video generation that may fail, while `currentVideo` is assigned
only at the end (line 178); the catch block only logs.  `fuel` bounds the
poll loop. -/
def initBackground (env : Env) (fuel : Nat) (s : ServerState) : CycleResult :=
  let prompt := generatePromptForLuma
    (env.promptResp (promptRequestBody s.currentPrompt)) s.currentPrompt
  let s1 : ServerState := { s with currentPrompt := prompt }
  match generateVideo env.genResp prompt with
  | .error _ => .errored s1
  | .ok genResponse =>
    match pollGeneration (env.statusResp genResponse.id) fuel with
    | .err => .errored s1
    | .diverge => .polling s1
    | .ok generation =>
      .committed { s1 with
        currentVideo_id := genResponse.id,
        currentVideo_url := generation.video_url }

/-- The fixed prompt of the interpolation request (script.js:199). -/
def interpPrompt : String :=
  "Interpolate between current background and new variation"

/-- `updateBackground` (script.js:186-210).  `newPrompt` is a local; the
globals `currentVideo` and `currentPrompt` are assigned only by the two
final statements (lines 205-206, with no await between them), so every
caught error leaves the state untouched.  The second component records the
interpolation request payload submitted during the run (`none` if the run
ended before `interpolateVideos` was called). -/
def updateBackground (env : Env) (fuel : Nat) (s : ServerState) :
    CycleResult × Option InterpPayload :=
  let newPrompt := generatePromptForLuma
    (env.promptResp (promptRequestBody s.currentPrompt)) s.currentPrompt
  match generateVideo env.genResp newPrompt with
  | .error _ => (.errored s, none)
  | .ok newGenResponse =>
    match pollGeneration (env.statusResp newGenResponse.id) fuel with
    | .err => (.errored s, none)
    | .diverge => (.polling s, none)
    | .ok _newGeneration =>
      let req := interpPayloadOf s.currentVideo_id newGenResponse.id interpPrompt
      match interpolateVideos env.interpResp s.currentVideo_id
          newGenResponse.id interpPrompt with
      | .error _ => (.errored s, some req)
      | .ok interpResponse =>
        match pollGeneration (env.statusResp interpResponse.id) fuel with
        | .err => (.errored s, some req)
        | .diverge => (.polling s, some req)
        | .ok interpolatedGeneration =>
          (.committed ⟨interpResponse.id,
            interpolatedGeneration.video_url, newPrompt⟩, some req)

/-- Response of `GET /api/current-video`: the JSON body on success, or an
HTTP error status with the error message. -/
inductive EndpointResponse where
  | ok : String → EndpointResponse
  | err : Nat → String → EndpointResponse
deriving DecidableEq

/-- The `GET /api/current-video` handler (script.js:226-232): if
`currentVideo.video_url` is truthy it returns `{ video_url }`, otherwise
status 503 with `{ error: "Video not ready yet" }` (in JS both `null` and
the empty string are falsy).  The handler is a total function of the state:
it serves every request and never throws. -/
def currentVideoEndpoint (s : ServerState) : EndpointResponse :=
  match s.currentVideo_url with
  | some url => if url = "" then .err 503 "Video not ready yet" else .ok url
  | none => .err 503 "Video not ready yet"

/-- The refresh interval of `setInterval(updateBackground, 20000)`
(script.js:216). -/
def refreshIntervalMs : Nat := 20000

/-- Under standard JS timer semantics, `setInterval(updateBackground, 20000)`
fires at 20000·(k+1) ms after registration, `k = 0, 1, ...`. -/
def tickTime (k : Nat) : Nat := refreshIntervalMs * (k + 1)

/-- Timer model for script.js:216.  `updateBackground` (script.js:186-210)
contains no in-progress flag and `setInterval` does not await the previous
invocation of an async callback, so every tick starts a run of
`updateBackground` unconditionally.  A run started at tick `k` whose awaits
take `d` ms in total is in flight during `[tickTime k, tickTime k + d)`;
this counts the runs in flight at time `t`. -/
def cyclesInFlight (d t : Nat) : Nat :=
  ((Finset.range (t / refreshIntervalMs + 1)).filter
    (fun k => tickTime k ≤ t ∧ t < tickTime k + d)).card

/-- Mock prompt service used in the end-to-end scenario: it echoes the base
prompt (the `choices[0].text` of every response is the seed prompt itself, so
`generatePromptForLuma` returns its input unchanged). -/
def echoPromptResp : String → FetchResult CompletionResponse :=
  fun _ => .ok ⟨some [⟨some "A peaceful dynamic nature background"⟩]⟩

/-- Mock environment for the initial generation of the end-to-end scenario:
job `"A"` completes with `"http://x/a.mp4"` on the first status check. -/
def envInit : Env :=
  { promptResp := echoPromptResp
    genResp := fun _ => .ok ⟨some "A", none, none⟩
    statusResp := fun id _ =>
      if id = some "A" then
        .ok ⟨some "A", some "completed", some "http://x/a.mp4"⟩
      else .err
    interpResp := fun _ => .err }

/-- The state committed by a successful initial generation against `envInit`. -/
def stateA : ServerState :=
  ⟨some "A", some "http://x/a.mp4", "A peaceful dynamic nature background"⟩

/-- Mock environment for the refresh cycle of the end-to-end scenario: new
job `"B"` completes with `"http://x/b.mp4"`, interpolation job `"C"`
completes with `"http://x/c.mp4"`. -/
def envCycle : Env :=
  { promptResp := echoPromptResp
    genResp := fun _ => .ok ⟨some "B", none, none⟩
    statusResp := fun id _ =>
      if id = some "B" then
        .ok ⟨some "B", some "completed", some "http://x/b.mp4"⟩
      else if id = some "C" then
        .ok ⟨some "C", some "completed", some "http://x/c.mp4"⟩
      else .err
    interpResp := fun _ => .ok ⟨some "C", none, none⟩ }

/-- The state committed by the end-to-end refresh cycle against `envCycle`. -/
def stateC : ServerState :=
  ⟨some "C", some "http://x/c.mp4", "A peaceful dynamic nature background"⟩

/-- Mock environment in which every remote call fails at the transport
level. -/
def envFail : Env :=
  { promptResp := fun _ => .err
    genResp := fun _ => .err
    statusResp := fun _ _ => .err
    interpResp := fun _ => .err }

/-- Mock environment in which the prompt service answers with a fresh prompt
but the video-generation call fails at the transport level. -/
def envC7 : Env :=
  { promptResp := fun _ => .ok ⟨some [⟨some "Misty forest at dawn"⟩]⟩
    genResp := fun _ => .err
    statusResp := fun _ _ => .err
    interpResp := fun _ => .err }

/-- A generation record still being processed. -/
def procGen : Generation := ⟨some "J", some "processing", none⟩

/-- A completed generation record. -/
def compGen : Generation := ⟨some "J", some "completed", some "http://x/j.mp4"⟩

/-- A generation record that settled into the terminal `"failed"` status. -/
def failedGen : Generation := ⟨some "J", some "failed", none⟩

/-- Status stream reporting `"processing"` twice and then `"completed"`. -/
def c4fetch : Nat → FetchResult Generation
  | 0 => .ok procGen
  | 1 => .ok procGen
  | _ + 2 => .ok compGen

/-- Status stream reporting `"processing"` six times and then `"completed"`:
its poll loop sleeps 6 × 5000 ms = 30000 ms, longer than the 20000 ms
refresh interval. -/
def slowFetch : Nat → FetchResult Generation :=
  fun i => if i < 6 then .ok procGen else .ok compGen

/-- If every status fetch succeeds but never reports `"completed"`, the poll
loop is still running whatever the fuel: the loop has no attempt bound and
no timeout. -/
theorem pollGeneration_never (fuel : Nat) :
    ∀ (fetch : Nat → FetchResult Generation),
      (∀ i, ∃ gi, fetch i = .ok gi ∧ gi.status ≠ some "completed") →
      pollGeneration fetch fuel = .diverge := by
  induction fuel with
  | zero => intro fetch _; rfl
  | succ n ih =>
    intro fetch h
    obtain ⟨g, hg, hs⟩ := h 0
    simp only [pollGeneration, hg, getGeneration]
    rw [if_neg hs]
    exact ih _ (fun i => h (i + 1))

/-- If the first `"completed"` status is the `m`-th fetch (0-based), the poll
loop returns that generation record whenever the fuel exceeds `m`. -/
theorem pollGeneration_first (m : Nat) :
    ∀ (fetch : Nat → FetchResult Generation) (g : Generation),
      (∀ i, i < m → ∃ gi, fetch i = .ok gi ∧ gi.status ≠ some "completed") →
      fetch m = .ok g → g.status = some "completed" →
      ∀ fuel, m < fuel → pollGeneration fetch fuel = .ok g := by
  induction m with
  | zero =>
    intro fetch g _ hm hc fuel hf
    obtain ⟨k, rfl⟩ : ∃ k, fuel = k + 1 := ⟨fuel - 1, by omega⟩
    simp only [pollGeneration, hm, getGeneration]
    rw [if_pos hc]
  | succ n ih =>
    intro fetch g hb hm hc fuel hf
    obtain ⟨k, rfl⟩ : ∃ k, fuel = k + 1 := ⟨fuel - 1, by omega⟩
    obtain ⟨g0, hg0, hs0⟩ := hb 0 (Nat.succ_pos n)
    simp only [pollGeneration, hg0, getGeneration]
    rw [if_neg hs0]
    exact ih (fun i => fetch (i + 1)) g
      (fun i hi => hb (i + 1) (by omega)) hm hc k (by omega)

/-- Counted version of `pollGeneration_first`: with the first `"completed"`
status at the `m`-th fetch (0-based) and sufficient fuel, the loop performs
`m + 1` fetches and sleeps `m` times, each for `interval` ms. -/
theorem pollGenerationCounted_first (m : Nat) :
    ∀ (fetch : Nat → FetchResult Generation) (interval : Nat) (g : Generation),
      (∀ i, i < m → ∃ gi, fetch i = .ok gi ∧ gi.status ≠ some "completed") →
      fetch m = .ok g → g.status = some "completed" →
      ∀ fuel, m < fuel →
        pollGenerationCounted fetch interval fuel =
          (.ok g, m + 1, List.replicate m interval) := by
  induction m with
  | zero =>
    intro fetch interval g _ hm hc fuel hf
    obtain ⟨k, rfl⟩ : ∃ k, fuel = k + 1 := ⟨fuel - 1, by omega⟩
    simp only [pollGenerationCounted, hm, getGeneration]
    rw [if_pos hc]
    rfl
  | succ n ih =>
    intro fetch interval g hb hm hc fuel hf
    obtain ⟨k, rfl⟩ : ∃ k, fuel = k + 1 := ⟨fuel - 1, by omega⟩
    obtain ⟨g0, hg0, hs0⟩ := hb 0 (Nat.succ_pos n)
    simp only [pollGenerationCounted, hg0, getGeneration]
    rw [if_neg hs0]
    rw [ih (fun i => fetch (i + 1)) interval g
      (fun i hi => hb (i + 1) (by omega)) hm hc k (by omega)]
    rfl

/-- Whenever `initializeBackground` ends in its catch block, the state it
leaves behind is the input state with only `currentPrompt` replaced by the
generated prompt: `currentVideo` was never assigned, but the prompt was
already reassigned by the first step. -/
theorem initBackground_errored (env : Env) (fuel : Nat) (s s1 : ServerState)
    (h : initBackground env fuel s = .errored s1) :
    s1 = { s with currentPrompt := (generatePromptForLuma
      (env.promptResp (promptRequestBody s.currentPrompt)) s.currentPrompt) } := by
  simp only [initBackground] at h
  split at h
  · cases h; rfl
  · split at h
    · cases h; rfl
    · cases h
    · cases h

/-- Whenever `updateBackground` ends in its catch block, the state is exactly
the input state: the globals are assigned only by the two final statements of
the successful path. -/
theorem updateBackground_errored (env : Env) (fuel : Nat)
    (s sB : ServerState) (rq : Option InterpPayload)
    (h : updateBackground env fuel s = (.errored sB, rq)) : sB = s := by
  simp only [updateBackground] at h
  split at h
  · cases h; rfl
  · split at h
    · cases h; rfl
    · cases h
    · split at h
      · cases h; rfl
      · split at h
        · cases h; rfl
        · cases h
        · cases h

/-- Every interpolation request submitted by `updateBackground` carries the
input state's `currentVideo.id` — whatever it is, including `null` — as its
first keyframe, and the job id of the newly generated video as its second. -/
theorem updateBackground_req (env : Env) (fuel : Nat) (s : ServerState)
    (r : CycleResult) (rq : InterpPayload)
    (h : updateBackground env fuel s = (r, some rq)) :
    rq.frame0_id = s.currentVideo_id := by
  simp only [updateBackground] at h
  split at h
  · cases h
  · split at h
    · cases h
    · cases h
    · split at h
      · cases h; rfl
      · split at h
        · cases h; rfl
        · cases h; rfl
        · cases h; rfl

/-- C1: End-to-end scenario.  Starting from the default prompt with an
echoing prompt service: against `envInit` (job `"A"` completes with
`"http://x/a.mp4"` on the first status check) `initializeBackground` commits
`stateA` and the read endpoint returns `"http://x/a.mp4"`; then one
`updateBackground` against `envCycle` (job `"B"` completes with
`"http://x/b.mp4"`, interpolation job `"C"` with `"http://x/c.mp4"`) commits
`stateC`, the endpoint returns `"http://x/c.mp4"`, and the interpolation
request submitted during the cycle referenced exactly the job ids
`"A"` and `"B"` as its two keyframes. -/
theorem C1_end_to_end :
    initBackground envInit 1 initialState = .committed stateA ∧
    currentVideoEndpoint stateA = .ok "http://x/a.mp4" ∧
    updateBackground envCycle 1 stateA =
      (.committed stateC, some (interpPayloadOf (some "A") (some "B") interpPrompt)) ∧
    currentVideoEndpoint stateC = .ok "http://x/c.mp4" := by
  decide

/-- C2: after any successful `initializeBackground` commit, every
`updateBackground` run that ends in its catch block (a gateway or poller
step raised) leaves the committed state exactly unchanged, and the read
endpoint still answers as it did after the initial commit: nothing is
partially committed, the old state is neither overwritten nor cleared. -/
theorem C2_failing_cycle_preserves_state (envI envU : Env) (fuelI fuelU : Nat)
    (s0 sA sB : ServerState) (rq : Option InterpPayload)
    (_hInit : initBackground envI fuelI s0 = .committed sA)
    (hCycle : updateBackground envU fuelU sA = (.errored sB, rq)) :
    sB = sA ∧ currentVideoEndpoint sB = currentVideoEndpoint sA := by
  have h := updateBackground_errored envU fuelU sA sB rq hCycle
  exact ⟨h, by rw [h]⟩

/-- Witness for C2: `envInit` commits `stateA`; a cycle against `envFail`
(transport failure at video generation) is caught and the state is still
`stateA`. -/
theorem C2_witness :
    stateA = stateA ∧ currentVideoEndpoint stateA = currentVideoEndpoint stateA :=
  C2_failing_cycle_preserves_state envInit envFail 1 1 initialState stateA
    stateA none (by decide) (by decide)

/-- C3: `generatePromptForLuma` is a total function (the embedding returns
`String`, not `Except`: the source's catch-all absorbs every raise), and on
a transport/parse failure, a missing `choices` field, an empty `choices`
array, or a missing `text` field it returns the input base prompt
unchanged. -/
theorem C3_generatePrompt_fallback (resp : FetchResult CompletionResponse)
    (base : String) :
    (resp = .err → generatePromptForLuma resp base = base) ∧
    (resp = .ok ⟨none⟩ → generatePromptForLuma resp base = base) ∧
    (resp = .ok ⟨some []⟩ → generatePromptForLuma resp base = base) ∧
    (∀ rest, resp = .ok ⟨some (⟨none⟩ :: rest)⟩ →
      generatePromptForLuma resp base = base) := by
  refine ⟨?_, ?_, ?_, ?_⟩
  · rintro rfl; rfl
  · rintro rfl; rfl
  · rintro rfl; rfl
  · rintro rest rfl; rfl

/-- Witness for C3: on a transport failure the default prompt is returned
unchanged. -/
theorem C3_witness :
    generatePromptForLuma .err "A peaceful dynamic nature background" =
      "A peaceful dynamic nature background" :=
  (C3_generatePrompt_fallback .err "A peaceful dynamic nature background").1 rfl

/-- C4: when the `n`-th status fetch (1-based) is the first to report
`"completed"`, `pollGeneration` performs exactly `n` fetches and sleeps
exactly `n - 1` times, each for the configured `interval`; in particular a
job completed on the first fetch costs one fetch and no sleep. -/
theorem C4_poll_fetch_and_sleep_counts (fetch : Nat → FetchResult Generation)
    (interval n : Nat) (g : Generation) (hpos : 0 < n)
    (hbefore : ∀ i, i < n - 1 → ∃ gi, fetch i = .ok gi ∧ gi.status ≠ some "completed")
    (hn : fetch (n - 1) = .ok g) (hc : g.status = some "completed") :
    ∀ fuel, n - 1 < fuel →
      pollGenerationCounted fetch interval fuel =
        (.ok g, n, List.replicate (n - 1) interval) := by
  obtain ⟨m, rfl⟩ : ∃ m, n = m + 1 := ⟨n - 1, by omega⟩
  intro fuel hf
  simpa using pollGenerationCounted_first m fetch interval g
    (by simpa using hbefore) (by simpa using hn) hc fuel (by omega)

/-- Witness for C4: a job reporting `"processing"`, `"processing"`,
`"completed"` costs exactly three fetches and two sleeps of the configured
10 ms interval. -/
theorem C4_witness :
    pollGenerationCounted c4fetch 10 3 = (.ok compGen, 3, [10, 10]) := by
  have h := C4_poll_fetch_and_sleep_counts c4fetch 10 3 compGen (by decide)
    ?_ rfl (by decide) 3 (by decide)
  · simpa using h
  · intro i hi
    match i, hi with
    | 0, _ => exact ⟨procGen, rfl, by decide⟩
    | 1, _ => exact ⟨procGen, rfl, by decide⟩

/-- C5: `pollGeneration` terminates exactly when some status fetch reports
`"completed"` — in which case it returns that job record — and runs forever
on any status sequence that never reports `"completed"`, including a job
that settles into the terminal `"failed"` status: there is no maximum
attempt count and no timeout. -/
theorem C5_poll_terminates_iff_completed (fetch : Nat → FetchResult Generation) :
    ((∀ i, ∃ gi, fetch i = .ok gi ∧ gi.status ≠ some "completed") →
      ∀ fuel, pollGeneration fetch fuel = .diverge) ∧
    (∀ m g, (∀ i, i < m → ∃ gi, fetch i = .ok gi ∧ gi.status ≠ some "completed") →
      fetch m = .ok g → g.status = some "completed" →
      ∀ fuel, m < fuel → pollGeneration fetch fuel = .ok g) :=
  ⟨fun h fuel => pollGeneration_never fuel fetch h,
   fun m g hb hm hc fuel hf => pollGeneration_first m fetch g hb hm hc fuel hf⟩

/-- Witness for C5: a job stuck in the terminal `"failed"` status is still
being polled after 100 attempts' worth of fuel — the loop never returns. -/
theorem C5_witness :
    pollGeneration (fun _ => .ok failedGen) 100 = .diverge :=
  (C5_poll_terminates_iff_completed (fun _ => .ok failedGen)).1
    (fun _ => ⟨failedGen, rfl, by decide⟩) 100

/-- C6 counterexample: the claim says `generateVideo` fails by propagating an
error when the response is missing the `id` field, but at the concrete input
where the service answers with a body carrying no `id` (and prompt `"p"`),
`generateVideo` returns the body successfully and does not raise: the code
performs no validation of the response. -/
theorem C6_counterexample :
    generateVideo (fun _ => .ok ⟨none, none, none⟩) "p" =
      .ok ⟨none, none, none⟩ ∧
    generateVideo (fun _ => .ok ⟨none, none, none⟩) "p" ≠ .error () :=
  ⟨rfl, fun h => Except.noConfusion h⟩

/-- C6 amended: `generateVideo` propagates transport/parse errors to its
caller, and otherwise returns the parsed response body as-is — a response
missing the `id` field yields a job record with no id, not an error. -/
theorem C6_amended_returns_response (respond : GenPayload → FetchResult Generation)
    (prompt : String) :
    (respond (genPayload prompt) = .err → generateVideo respond prompt = .error ()) ∧
    (∀ g, respond (genPayload prompt) = .ok g → generateVideo respond prompt = .ok g) := by
  constructor
  · intro h; simp only [generateVideo, h]
  · intro g h; simp only [generateVideo, h]

/-- Witness for C6 amended: a transport failure propagates. -/
theorem C6_witness :
    generateVideo (fun _ => FetchResult.err) "p" = .error () :=
  (C6_amended_returns_response (fun _ => .err) "p").1 rfl

/-- C7 counterexample: against `envC7` the prompt service answers
`"Misty forest at dawn"` and video generation then fails, so
`initializeBackground` exits through its catch block — yet `currentPrompt`
has already been reassigned and differs from its pre-initialize value: the
state is not left entirely unset. -/
theorem C7_counterexample :
    initBackground envC7 1 initialState =
      .errored ⟨none, none, "Misty forest at dawn"⟩ ∧
    (⟨none, none, "Misty forest at dawn"⟩ : ServerState).currentPrompt ≠
      initialState.currentPrompt := by
  decide

/-- C7 amended: if `initializeBackground` fails, `currentVideo.id` and
`currentVideo.video_url` are unchanged from their pre-initialize values, but
`currentPrompt` has already been reassigned by the first step (the prompt is
committed before video generation, not as part of the final commit). -/
theorem C7_amended_video_unchanged (env : Env) (fuel : Nat)
    (s s1 : ServerState) (h : initBackground env fuel s = .errored s1) :
    s1.currentVideo_id = s.currentVideo_id ∧
    s1.currentVideo_url = s.currentVideo_url ∧
    s1.currentPrompt = generatePromptForLuma
      (env.promptResp (promptRequestBody s.currentPrompt)) s.currentPrompt := by
  have h2 := initBackground_errored env fuel s s1 h
  subst h2
  exact ⟨rfl, rfl, rfl⟩

/-- Witness for C7 amended: the failing run against `envC7`. -/
theorem C7_witness :
    (⟨none, none, "Misty forest at dawn"⟩ : ServerState).currentVideo_id =
      initialState.currentVideo_id ∧
    (⟨none, none, "Misty forest at dawn"⟩ : ServerState).currentVideo_url =
      initialState.currentVideo_url ∧
    (⟨none, none, "Misty forest at dawn"⟩ : ServerState).currentPrompt =
      generatePromptForLuma
        (envC7.promptResp (promptRequestBody initialState.currentPrompt))
        initialState.currentPrompt :=
  C7_amended_video_unchanged envC7 1 initialState
    ⟨none, none, "Misty forest at dawn"⟩ (by decide)

/-- C8 counterexample: the claim says at most one refresh cycle executes at
a time and a tick firing mid-cycle is skipped, but the code registers
`setInterval(updateBackground, 20000)` with no in-progress guard.  At the
concrete input: a cycle whose generation poll alone sleeps
6 × 5000 ms = 30000 ms (the `slowFetch` status stream), at time 45000 ms two
cycles are in flight simultaneously — the tick at 40000 ms started a second
run while the first (started at 20000 ms) was still polling. -/
theorem C8_counterexample :
    (pollGenerationCounted slowFetch 5000 10).2.2 = List.replicate 6 5000 ∧
    cyclesInFlight 30000 45000 = 2 := by
  decide

/-- C8 amended: `setInterval` invokes `updateBackground` every 20000 ms
unconditionally; there is no mutual-exclusion flag, so whenever a cycle's
awaits last longer than the refresh interval, at least two cycles are in
flight at the next tick — a tick is neither skipped nor queued, it starts an
overlapping run. -/
theorem C8_amended_cycles_overlap (d : Nat) (h : refreshIntervalMs < d) :
    2 ≤ cyclesInFlight d (tickTime 1) := by
  have hd : 20000 < d := h
  unfold cyclesInFlight
  have h0 : 0 ∈ (Finset.range (tickTime 1 / refreshIntervalMs + 1)).filter
      (fun k => tickTime k ≤ tickTime 1 ∧ tickTime 1 < tickTime k + d) := by
    refine Finset.mem_filter.mpr ⟨Finset.mem_range.mpr (by decide), by decide, ?_⟩
    simp only [tickTime, refreshIntervalMs]
    omega
  have h1 : 1 ∈ (Finset.range (tickTime 1 / refreshIntervalMs + 1)).filter
      (fun k => tickTime k ≤ tickTime 1 ∧ tickTime 1 < tickTime k + d) := by
    refine Finset.mem_filter.mpr ⟨Finset.mem_range.mpr (by decide), le_refl _, ?_⟩
    simp only [tickTime, refreshIntervalMs]
    omega
  have h2 : 1 < ((Finset.range (tickTime 1 / refreshIntervalMs + 1)).filter
      (fun k => tickTime k ≤ tickTime 1 ∧ tickTime 1 < tickTime k + d)).card :=
    Finset.one_lt_card.mpr ⟨0, h0, 1, h1, by decide⟩
  omega

/-- Witness for C8 amended: with a 30000 ms cycle, two runs overlap at the
second tick. -/
theorem C8_witness :
    refreshIntervalMs < 30000 ∧ 2 ≤ cyclesInFlight 30000 (tickTime 1) :=
  ⟨by decide, C8_amended_cycles_overlap 30000 (by decide)⟩

/-- C9: before any state has ever been committed the read endpoint answers
with the distinct status 503 and message `"Video not ready yet"` — at
process start, and still after any `initializeBackground` run that failed;
the handler is a total function of the state, so the process keeps serving
requests. -/
theorem C9_not_ready_before_first_commit (env : Env) (fuel : Nat)
    (s1 : ServerState)
    (h : initBackground env fuel initialState = .errored s1) :
    currentVideoEndpoint initialState = .err 503 "Video not ready yet" ∧
    currentVideoEndpoint s1 = .err 503 "Video not ready yet" := by
  have h2 := initBackground_errored env fuel initialState s1 h
  subst h2
  exact ⟨rfl, rfl⟩

/-- Witness for C9: the failing run against `envC7`. -/
theorem C9_witness :
    currentVideoEndpoint initialState = .err 503 "Video not ready yet" ∧
    currentVideoEndpoint ⟨none, none, "Misty forest at dawn"⟩ =
      .err 503 "Video not ready yet" :=
  C9_not_ready_before_first_commit envC7 1
    ⟨none, none, "Misty forest at dawn"⟩ (by decide)

/-- C10: `updateBackground` has no readiness guard: every interpolation
request it submits carries the input state's `currentVideo.id` — whatever it
is — as its first keyframe, and invoked on the unset `initialState`
(`currentVideo.id = null`, e.g. after a failed initialize) against
`envCycle` it proceeds through prompt generation, video generation and
polling, and submits the interpolation request with `null` as the first
keyframe reference instead of aborting early. -/
theorem C10_no_readiness_guard :
    (∀ env fuel s r rq, updateBackground env fuel s = (r, some rq) →
      rq.frame0_id = s.currentVideo_id) ∧
    updateBackground envCycle 1 initialState =
      (.committed stateC, some (interpPayloadOf none (some "B") interpPrompt)) := by
  constructor
  · intro env fuel s r rq h
    exact updateBackground_req env fuel s r rq h
  · decide

/-- Witness for C10: the request recorded in the concrete unset-state run
indeed has `null` as its first keyframe. -/
theorem C10_witness :
    (interpPayloadOf none (some "B") interpPrompt).frame0_id =
      initialState.currentVideo_id :=
  C10_no_readiness_guard.1 envCycle 1 initialState (.committed stateC)
    (interpPayloadOf none (some "B") interpPrompt) (by decide)
